import Mathlib

/-!
Shallow embedding of `src/app.py` from the food-analyzer-api repository.

The file models the single Flask endpoint `analyze_image` together with its
helpers `flatten`, `query_openfoodfacts` and `map_score_to_letter`.  External
collaborators (the OpenFoodFacts HTTP call, the Gemini vision extractor, the
pynutriscore library, and the injected classifier pipeline with its SHAP
explainer) are modelled as oracle fields of a `World` structure; everything
the repository's own code does to their outputs is embedded faithfully.

Python values flowing through the endpoint (JSON-decoded profiles and
extraction payloads, nutrition maps) are modelled by the inductive `PyVal`.
Python `float` values are modelled as rationals; `str()` formatting of
non-string scalars is approximate (no claim depends on it).  A Python
exception that `analyze_image` does not catch escapes the handler (Flask
turns it into an HTTP 500 traceback); this is modelled by the `crash`
constructor of `AnalyzeResult`, kept distinct from the `jsonify` error
responses the code returns deliberately.
-/

namespace FoodAnalyzer

/-- Python-ish runtime values (the image of `json.loads` plus `None`). -/
inductive PyVal where
  | vNone
  | vBool (b : Bool)
  | vNum (q : ℚ)
  | vStr (s : String)
  | vList (xs : List PyVal)
  | vDict (kvs : List (String × PyVal))

/-! ## String helpers

Core `String` functions such as `String.splitOn`, `String.trim` and
`String.toLower` are defined by well-founded recursion and do not reduce in
the kernel, so the Python string methods used by `app.py` are re-implemented
here structurally over `List Char`. -/

/-- Whitespace characters recognised by Python's `str.strip` / `str.split`. -/
def isWS (c : Char) : Bool := c = ' ' || c = '\t' || c = '\n' || c = '\r'

/-- Lower-case a single ASCII character (Python `str.lower` on the tokens
used by the code, which are ASCII allergen tags). -/
def charLower (c : Char) : Char :=
  if 'A' ≤ c && c ≤ 'Z' then Char.ofNat (c.toNat + 32) else c

/-- Python `str.lower()`. -/
def strLower (s : String) : String := ⟨s.data.map charLower⟩

/-- Python `str.strip()` (no argument): drop whitespace from both ends. -/
def strTrim (s : String) : String :=
  ⟨((s.data.dropWhile isWS).reverse.dropWhile isWS).reverse⟩

/-- Helper for `strSplitChar`: split a character list at every occurrence of
`sep`, keeping empty fields, like Python `str.split(sep)`. -/
def splitCharAux (sep : Char) : List Char → List Char → List (List Char)
  | [], acc => [acc.reverse]
  | c :: cs, acc =>
    if c = sep then acc.reverse :: splitCharAux sep cs []
    else splitCharAux sep cs (c :: acc)

/-- Python `s.split(sep)` for a one-character separator (used with `","` and
`":"`). `"".split(",") = [""]`. -/
def strSplitChar (s : String) (sep : Char) : List String :=
  (splitCharAux sep s.data []).map (fun cs => ⟨cs⟩)

/-- Helper for `strSplitSeq`: split at every occurrence of the non-empty
separator sequence `sep`; the `Nat` argument is structural fuel (one unit per
consumed character, so `length + 1` always suffices). -/
def splitSeqAux (sep : List Char) : Nat → List Char → List Char → List (List Char)
  | 0, cs, acc => [acc.reverse ++ cs]
  | _ + 1, [], acc => [acc.reverse]
  | fuel + 1, c :: cs, acc =>
    if sep.isPrefixOf (c :: cs) then
      acc.reverse :: splitSeqAux sep fuel ((c :: cs).drop sep.length) []
    else
      splitSeqAux sep fuel cs (c :: acc)

/-- Python `s.split(sep)` for a multi-character separator (used with `", "`). -/
def strSplitSeq (s : String) (sep : String) : List String :=
  (splitSeqAux sep.data (s.data.length + 1) s.data []).map (fun cs => ⟨cs⟩)

/-- Python `lst[-1]` on a non-empty list of strings, with a default for the
(unreachable) empty case. -/
def lastD (xs : List String) (dflt : String) : String := xs.getLast?.getD dflt

/-- Python `s.replace("_", " ")` (single-character pattern, so a plain map). -/
def replaceUnderscore (s : String) : String :=
  ⟨s.data.map (fun c => if c = '_' then ' ' else c)⟩

/-- Contiguous-substring test on character lists. -/
def infixCheck (needle : List Char) : List Char → Bool
  | [] => needle.isEmpty
  | c :: cs => needle.isPrefixOf (c :: cs) || infixCheck needle cs

/-- Python `needle in haystack` on strings (substring containment). -/
def strMentions (haystack needle : String) : Bool :=
  infixCheck needle.data haystack.data

/-! ## Python float parsing

`app.py` line 196 does `float(val.split()[0])` for string nutrient values and
`float(val)` otherwise; any exception defaults the column to `0.0`. -/

/-- Numeric value of a list of decimal digit characters. -/
def digitsToNat (ds : List Char) : Nat :=
  ds.foldl (fun n c => n * 10 + (c.toNat - 48)) 0

/-- Powers of ten as integers, by structural recursion. -/
def pow10 : Nat → ℤ
  | 0 => 1
  | n + 1 => 10 * pow10 n

/-- Assemble a rational from sign, concatenated digits, the length of the
fractional part, and a base-ten exponent. -/
def ratOfParts (neg : Bool) (mantissa : Nat) (fracLen : Nat) (e : ℤ) : ℚ :=
  let num : ℤ := mantissa * (if 0 ≤ e then pow10 e.toNat else 1)
  let den : ℤ := pow10 fracLen * (if 0 ≤ e then 1 else pow10 (-e).toNat)
  if neg then -(Rat.divInt num den) else Rat.divInt num den

/-- Parse an optional exponent suffix (after `e`/`E`): sign and digits,
nothing trailing. -/
def parseExpSuffix (cs : List Char) : Option ℤ :=
  let (esign, rest) :=
    match cs with
    | '+' :: r => ((1 : ℤ), r)
    | '-' :: r => ((-1 : ℤ), r)
    | r => ((1 : ℤ), r)
  let ds := rest.takeWhile Char.isDigit
  let rest2 := rest.dropWhile Char.isDigit
  if ds.isEmpty || !rest2.isEmpty then none
  else some (esign * (digitsToNat ds : ℤ))

/-- CPython `float(token)` on a whitespace-free token, as a rational:
optional sign, digits with an optional decimal point, optional exponent.
(Not modelled: `inf`/`nan` and digit-group underscores, which the nutrition
strings this endpoint handles do not use.) `none` models `ValueError`. -/
def parsePyFloat (s : String) : Option ℚ :=
  let (neg, cs) :=
    match s.data with
    | '+' :: rest => (false, rest)
    | '-' :: rest => (true, rest)
    | rest => (false, rest)
  let intPart := cs.takeWhile Char.isDigit
  let cs1 := cs.dropWhile Char.isDigit
  let (fracPart, cs2) :=
    match cs1 with
    | '.' :: rest => (rest.takeWhile Char.isDigit, rest.dropWhile Char.isDigit)
    | _ => ([], cs1)
  if intPart.isEmpty && fracPart.isEmpty then none
  else
    let mant := digitsToNat (intPart ++ fracPart)
    match cs2 with
    | [] => some (ratOfParts neg mant fracPart.length 0)
    | 'e' :: rest =>
      (parseExpSuffix rest).map (ratOfParts neg mant fracPart.length)
    | 'E' :: rest =>
      (parseExpSuffix rest).map (ratOfParts neg mant fracPart.length)
    | _ => none

/-- First whitespace-delimited token of a string: `s.split()[0]`, with `none`
modelling the `IndexError` raised when `s.split()` is empty. -/
def firstToken (s : String) : Option String :=
  let t := (s.data.dropWhile isWS).takeWhile (fun c => !isWS c)
  if t.isEmpty then none else some ⟨t⟩

/-- Python `str()` on the values `flatten` may see.  Formatting of
non-string scalars and nested containers is approximate; no claim (and no
input exercised by the endpoint's callers) depends on it. -/
def pyStr : PyVal → String
  | .vStr s => s
  | .vNum q => toString q
  | .vBool b => if b then "True" else "False"
  | .vNone => "None"
  | .vList _ => "<list>"
  | .vDict _ => "<dict>"

/-- Comma-space join of a list of strings (Python `', '.join`). -/
def joinComma : List String → String
  | [] => ""
  | [s] => s
  | s :: rest => s ++ ", " ++ joinComma rest

/-- Lines 44-47 of `app.py`: join list values with `", "`, pass everything
else through unchanged. -/
def flatten (value : PyVal) : PyVal :=
  match value with
  | .vList xs => .vStr (joinComma (xs.map pyStr))
  | v => v

/-! ## Dictionaries -/

/-- Association-list lookup (Python dicts have unique keys). -/
def lookupStr (kvs : List (String × PyVal)) (k : String) : Option PyVal :=
  match kvs with
  | [] => none
  | (k', v) :: rest => if k' = k then some v else lookupStr rest k

/-- Python `d.get(key, default)` on an actual dict. -/
def dictGetD (kvs : List (String × PyVal)) (k : String) (dflt : PyVal) : PyVal :=
  (lookupStr kvs k).getD dflt

/-- Python `v.get(key, default)` on an arbitrary value: raises
`AttributeError` when `v` is not a dict. -/
def pyGetD (v : PyVal) (k : String) (dflt : PyVal) : Except String PyVal :=
  match v with
  | .vDict kvs => .ok (dictGetD kvs k dflt)
  | _ => .error "AttributeError: object has no attribute get"

/-! ## Data model -/

/-- Lines 68-78 of `app.py`. -/
def map_score_to_letter (score : ℚ) : String :=
  if score ≥ 80 then "A"
  else if score ≥ 60 then "B"
  else if score ≥ 40 then "C"
  else if score ≥ 20 then "D"
  else "E"

/-- The `nutriscore` dicts built by the endpoint (line 109 and lines 60-64,
147-174).  Fields that a given branch leaves out of its JSON payload are
`none`. -/
structure NutriOut where
  score : Option ℚ
  grade : Option String
  image_url : Option String
  error : Option String

/-- The `product` JSON object of a successful OpenFoodFacts response, after
the `.get` defaults applied on lines 57-64 (`ingredients_text` defaults to
`""`, `allergens_tags` to `[]`, `nutriments` to `{}`; the two nutriscore
fields default to `None`). -/
structure OffRaw where
  ingredients_text : String
  allergens_tags : List String
  nutriments : List (String × PyVal)
  nutriscore_grade : Option String
  nutriscore_score : Option ℚ
  nutriscore_score_opposite : Option String

/-- The dict returned by `query_openfoodfacts` (lines 56-65). -/
structure OffData where
  ingredients : List String
  allergens : List String
  nutrition_facts : List (String × PyVal)
  nutriscore : NutriOut

/-- Arguments passed to the pynutriscore `NutriScore` constructor
(lines 153-162). -/
structure PNArgs where
  energy_kj : PyVal
  saturated_fat : PyVal
  total_sugar : PyVal
  sodium : PyVal
  fruits_veg_percentage : PyVal
  fiber : PyVal
  protein : PyVal

/-- External collaborators of the endpoint, as oracles.
`offResponse` collapses the HTTP call of `query_openfoodfacts` together with
its `status_code == 200` and `data["status"] == 1` gates: `none` covers a
failed call and a no-match response alike.  `geminiParsed` is the result of
`json.loads` on the fence-stripped `geminiText` (`none` = `JSONDecodeError`).
`pynutri` is the pynutriscore computation (`error` = the exception message
caught on line 168).  `predictLabel`, `transformRow`, `shapContrib` and
`featureNames` are the injected pipeline's `predict`, the preprocessor's
`transform`, the SHAP explainer's contribution row, and
`get_feature_names_out` (`none` = `AttributeError`). -/
structure World where
  offResponse : String → Option OffRaw
  geminiText : String
  geminiParsed : Option PyVal
  pynutri : PNArgs → Except String (ℚ × String)
  predictLabel : List (String × PyVal) → String
  transformRow : List (String × PyVal) → List ℚ
  shapContrib : List ℚ → List ℚ
  featureNames : Option (List String)

/-- A request to `/analyze`.  `profile = none` models an absent (or empty,
hence falsy) profile form field; `some none` a present field whose text is
not valid JSON; `some (some v)` a field parsing to `v`.  `barcode` is the
raw form field (the endpoint strips it). -/
structure Request where
  hasImage : Bool
  profile : Option (Option PyVal)
  barcode : String

/-- The JSON payload of a successful analyze response.  `reason` is present
only on the allergen hard-stop (line 131), `explanation` only on the
classification path (line 236). -/
structure Decision where
  profile : PyVal
  source : String
  analysis : PyVal
  should_consume : String
  nutriscore : NutriOut
  reason : Option String
  explanation : Option (List String)

/-- Endpoint outcome: a deliberate `jsonify` error response with its HTTP
status (and attached raw text, when any), a decision payload, or an
uncaught Python exception. -/
inductive AnalyzeResult where
  | httpError (status : Nat) (error : String) (raw_response : Option String)
  | ok (d : Decision)
  | crash (msg : String)

/-! ## The endpoint -/

/-- Lines 56-65 of `app.py`: the dict built from a successful response's
`product` object. -/
def offDataOf (product : OffRaw) : OffData :=
  { ingredients := strSplitSeq product.ingredients_text ", "
    allergens := product.allergens_tags
    nutrition_facts := product.nutriments
    nutriscore := { score := product.nutriscore_score
                    grade := product.nutriscore_grade
                    image_url := product.nutriscore_score_opposite
                    error := none } }

/-- Lines 49-66 of `app.py`. -/
def query_openfoodfacts (w : World) (barcode : String) : Option OffData :=
  match w.offResponse barcode with
  | none => none
  | some product => some (offDataOf product)

/-- Lines 91-95 of `app.py`: the default profile. -/
def defaultProfile : PyVal :=
  .vDict [("allergies", .vStr "none"), ("diet", .vStr "none"), ("conditions", .vStr "none")]

/-- Line 109 of `app.py`: the initial nutriscore value. -/
def initNutriscore : NutriOut :=
  { score := none, grade := some "unknown", image_url := none, error := none }

/-- Lines 97-101: the profile used by the request, or `none` for the 400
response on malformed JSON. -/
def profileOf (req : Request) : Option PyVal :=
  match req.profile with
  | none => some defaultProfile
  | some none => none
  | some (some v) => some v

/-- Line 114: normalisation of one user allergy token. -/
def normalizeAllergyToken (a : String) : String := strTrim (strLower a)

/-- Line 115: normalisation of one product allergen tag
(`a.split(":")[-1].replace("_", " ").lower().strip()`). -/
def normalizeAllergenTag (a : String) : String :=
  strTrim (strLower (replaceUnderscore (lastD (strSplitChar a ':') "")))

/-- Line 114: the user allergy token list from the profile's allergies
string. -/
def userAllergiesOf (s : String) : List String :=
  (strSplitChar s ',').map normalizeAllergyToken

/-- Line 117: `any(allergen in product_allergens for allergen in
user_allergies if allergen != 'none')`. -/
def hasAllergenConflict (userAllergies productAllergens : List String) : Bool :=
  userAllergies.any (fun a => a != "none" && productAllergens.contains a)

/-- Lines 118-132: the hard-stop response payload. -/
def hardStopDecision (prof : PyVal) (off : OffData) (productAllergens : List String) : Decision :=
  { profile := prof
    source := "OpenFoodFacts"
    analysis := .vDict [("ingredients", .vList (off.ingredients.map .vStr)),
                        ("nutrition_facts", .vDict off.nutrition_facts),
                        ("allergens", .vList (productAllergens.map .vStr))]
    should_consume := "No"
    nutriscore := { score := some 30, grade := some (map_score_to_letter 30),
                    image_url := none, error := none }
    reason := some "Allergen conflict detected from OpenFoodFacts"
    explanation := none }

/-- Lines 134-145: the `extracted` dict built from registry data, with the
seven alias lookups into `nutriments`. -/
def registryExtracted (off : OffData) : PyVal :=
  .vDict [("ingredients", .vList (off.ingredients.map .vStr)),
          ("nutrition_facts", .vDict
            [("Calories", dictGetD off.nutrition_facts "energy-kcal_100g" (.vNum 0)),
             ("Total Fat", dictGetD off.nutrition_facts "fat_100g" (.vNum 0)),
             ("Saturated Fat", dictGetD off.nutrition_facts "saturated-fat_100g" (.vNum 0)),
             ("Sodium", dictGetD off.nutrition_facts "sodium_100g" (.vNum 0)),
             ("Total Carbohydrate", dictGetD off.nutrition_facts "carbohydrates_100g" (.vNum 0)),
             ("Sugar", dictGetD off.nutrition_facts "sugars_100g" (.vNum 0)),
             ("Protein", dictGetD off.nutrition_facts "proteins_100g" (.vNum 0))])]

/-- Lines 153-161: the arguments fed to pynutriscore. -/
def pnArgsOf (nf : List (String × PyVal)) : PNArgs :=
  { energy_kj := dictGetD nf "energy_100g" (.vNum 0)
    saturated_fat := dictGetD nf "saturated-fat_100g" (.vNum 0)
    total_sugar := dictGetD nf "sugars_100g" (.vNum 0)
    sodium := dictGetD nf "sodium_100g" (.vNum 0)
    fruits_veg_percentage := dictGetD nf "fruits-vegetables-nuts-legumes_100g" (.vNum 0)
    fiber := dictGetD nf "fiber_100g" (.vNum 0)
    protein := dictGetD nf "proteins_100g" (.vNum 0) }

/-- Python truthiness test `not nutriscore.get("grade")` on an optional
string: `None` and `""` are falsy. -/
def optStrFalsy (g : Option String) : Bool :=
  match g with
  | none => true
  | some s => s = ""

/-- Lines 147-174: use the registry-supplied nutriscore, falling back to
pynutriscore when the grade is falsy or `"unknown"` or the score is `None`. -/
def registryNutriscore (w : World) (off : OffData) : NutriOut :=
  let ns := off.nutriscore
  if optStrFalsy ns.grade || ns.grade == some "unknown" || ns.score == none then
    match w.pynutri (pnArgsOf off.nutrition_facts) with
    | .ok sg => { score := some sg.1, grade := some sg.2, image_url := none, error := none }
    | .error msg => { score := none, grade := some "unknown", image_url := none,
                      error := some ("NutriScore fallback failed: " ++ msg) }
  else ns

/-- Outcome of the registry branch (lines 111-174): a hard stop, or the
`extracted`/`nutriscore` pair the rest of the handler continues with. -/
inductive RegPhase where
  | stopped (d : Decision)
  | through (extracted : Option PyVal) (ns : NutriOut)

/-- Lines 112-174: the body of `if barcode:`.  The `Except` error channel
carries uncaught Python exceptions (`.get` on a non-dict profile,
`.split` on a non-string allergies value). -/
def registryPhase (w : World) (prof : PyVal) (barcode : String) : Except String RegPhase :=
  match query_openfoodfacts w barcode with
  | none => .ok (.through none initNutriscore)
  | some off =>
    match pyGetD prof "allergies" (.vStr "") with
    | .error msg => .error msg
    | .ok av =>
      match av with
      | .vStr s =>
        if hasAllergenConflict (userAllergiesOf s) (off.allergens.map normalizeAllergenTag) then
          .ok (.stopped (hardStopDecision prof off (off.allergens.map normalizeAllergenTag)))
        else
          .ok (.through (some (registryExtracted off)) (registryNutriscore w off))
      | _ => .error "AttributeError: object has no attribute split"

/-- Line 193: the seven numeric feature columns, in order. -/
def nutrientColumns : List String :=
  ["Calories", "Total Fat", "Saturated Fat", "Sodium", "Total Carbohydrate", "Sugar", "Protein"]

/-- Lines 194-198: coerce one nutrient value to a float, defaulting to `0.0`
on any exception (string parse failure, empty split, non-numeric value). -/
def coerceNutrient (val : PyVal) : ℚ :=
  match val with
  | .vStr s =>
    match firstToken s with
    | none => 0
    | some t => (parsePyFloat t).getD 0
  | .vNum q => q
  | .vBool b => if b then 1 else 0
  | _ => 0

/-- Lines 185-198: build `input_data`, the feature row.  The error channel
carries the `AttributeError`s raised when the profile, the extraction
payload, or its `nutrition_facts` value is not a dict. -/
def buildRow (prof extracted : PyVal) : Except String (List (String × PyVal)) := do
  let a ← pyGetD prof "allergies" (.vStr "none")
  let d ← pyGetD prof "diet" (.vStr "none")
  let c ← pyGetD prof "conditions" (.vStr "none")
  let ing ← pyGetD extracted "ingredients" (.vList [])
  let nutrition ← pyGetD extracted "nutrition_facts" (.vDict [])
  let cols ← nutrientColumns.mapM (fun col => do
    let val ← pyGetD nutrition col (.vStr "0")
    pure (col, PyVal.vNum (coerceNutrient val)))
  pure ([("allergies", flatten a), ("diet", flatten d), ("conditions", flatten c),
         ("ingredients", flatten ing)] ++ cols)

/-- Lines 200-203: re-apply `flatten` to any column whose value is a list
(a no-op in practice, since `buildRow` already flattened every column). -/
def reflattenRow (row : List (String × PyVal)) : List (String × PyVal) :=
  row.map (fun kv =>
    match kv.2 with
    | .vList xs => (kv.1, flatten (.vList xs))
    | _ => kv)

/-- Line 206: map the pipeline's label to the response's `should_consume`. -/
def prediction_str_of (label : String) : String :=
  if label = "Yes" then "Yes" else "No"

/-- Line 218: positional fallback feature names. -/
def positionalFeatureNames (n : Nat) : List String :=
  (List.range n).map (fun i => "feature_" ++ toString i)

/-- The literal `0.01` of lines 226-227, as a rational. -/
def pointZeroOne : ℚ := ⟨1, 100, by decide, by simp⟩

/-- Line 226: the direction emoji for one SHAP contribution. -/
def shapDirection (value : ℚ) : String :=
  if value < -pointZeroOne then "🔴"
  else if value > pointZeroOne then "🟢"
  else "🟡"

/-- Line 227: the direction word for one SHAP contribution. -/
def shapWord (value : ℚ) : String :=
  if value < -pointZeroOne then "Negative"
  else if value > pointZeroOne then "Positive"
  else "Neutral"

/-- The comparison used by line 222's
`sort(key=lambda x: abs(x[1]), reverse=True)`: an element may precede
another when its contribution magnitude is at least as large. -/
def shapLE (a b : String × ℚ) : Bool := decide (|b.2| ≤ |a.2|)

/-- Lines 215-218: the feature names, falling back to positional names when
`get_feature_names_out` raises `AttributeError`. -/
def featureNamesOf (w : World) (n : Nat) : List String :=
  match w.featureNames with
  | some names => names
  | none => positionalFeatureNames n

/-- Lines 221-222: zip names with contributions and stable-sort by
descending absolute contribution (CPython's `list.sort` is stable; so is
`List.mergeSort`). -/
def sortedContributions (names : List String) (contribs : List ℚ) : List (String × ℚ) :=
  (names.zip contribs).mergeSort shapLE

/-- Line 227: the rendered explanation entry for one feature. -/
def renderExplanation (fv : String × ℚ) : String :=
  shapDirection fv.2 ++ " " ++ fv.1 ++ " → " ++ shapWord fv.2

/-- Lines 224-228: the explanation list (top 8 features). -/
def explanationsOf (names : List String) (contribs : List ℚ) : List String :=
  ((sortedContributions names contribs).take 8).map renderExplanation

/-- Lines 185-237: feature construction, classification, attribution, and
the final response payload. -/
def classifyPhase (w : World) (barcode : String) (prof extracted : PyVal)
    (ns : NutriOut) : AnalyzeResult :=
  match buildRow prof extracted with
  | .error msg => .crash msg
  | .ok row0 =>
    let df_input := reflattenRow row0
    let prediction_str := prediction_str_of (w.predictLabel df_input)
    let transformed := w.transformRow df_input
    let contributions := w.shapContrib transformed
    let feature_names := featureNamesOf w transformed.length
    let explanations := explanationsOf feature_names contributions
    .ok { profile := prof
          source := if barcode = "" then "Gemini" else "OpenFoodFacts"
          analysis := extracted
          should_consume := prediction_str
          nutriscore := ns
          reason := none
          explanation := some explanations }

/-- Lines 176-183: the Gemini extraction step, reached when the registry
produced nothing.  A JSON parse failure returns the 500 response with the
raw model text attached. -/
def visionPhase (w : World) (barcode : String) (prof : PyVal) (ns : NutriOut) : AnalyzeResult :=
  match w.geminiParsed with
  | none => .httpError 500 "Gemini output not JSON parseable" (some w.geminiText)
  | some extracted => classifyPhase w barcode prof extracted ns

/-- Lines 80-237: the `/analyze` endpoint. -/
def analyze_image (w : World) (req : Request) : AnalyzeResult :=
  if req.hasImage = false then
    .httpError 400 "No image uploaded" none
  else
    match profileOf req with
    | none => .httpError 400 "Invalid JSON in profile" none
    | some user_profile =>
      let barcode := strTrim req.barcode
      if barcode = "" then
        visionPhase w barcode user_profile initNutriscore
      else
        match registryPhase w user_profile barcode with
        | .error msg => .crash msg
        | .ok (.stopped d) => .ok d
        | .ok (.through none ns) => visionPhase w barcode user_profile ns
        | .ok (.through (some extracted) ns) => classifyPhase w barcode user_profile extracted ns

/-! ## Result projections (for stating concrete facts about outcomes) -/

/-- The decision of a successful outcome. -/
def resultDecision : AnalyzeResult → Option Decision
  | .ok d => some d
  | _ => none

/-- The `reason` field of a successful outcome. -/
def resultReason (r : AnalyzeResult) : Option String :=
  match r with
  | .ok d => d.reason
  | _ => none

/-- The nutriscore `score` field of a successful outcome. -/
def resultScore (r : AnalyzeResult) : Option ℚ :=
  match r with
  | .ok d => d.nutriscore.score
  | _ => none

/-- The nutriscore `grade` field of a successful outcome. -/
def resultGrade (r : AnalyzeResult) : Option String :=
  match r with
  | .ok d => d.nutriscore.grade
  | _ => none

/-- The `source` field of a successful outcome. -/
def resultSource (r : AnalyzeResult) : Option String :=
  match r with
  | .ok d => some d.source
  | _ => none

/-- The `should_consume` field of a successful outcome. -/
def resultShould (r : AnalyzeResult) : Option String :=
  match r with
  | .ok d => some d.should_consume
  | _ => none

/-- The `analysis` field of a successful outcome. -/
def resultAnalysis (r : AnalyzeResult) : Option PyVal :=
  match r with
  | .ok d => some d.analysis
  | _ => none

/-- Whether the outcome is an uncaught Python exception. -/
def resultIsCrash (r : AnalyzeResult) : Bool :=
  match r with
  | .crash _ => true
  | _ => false

/-! ## Auxiliary definitions for the verification -/

/-- Quality rank of a letter grade (`A` best), used to state monotonicity of
`map_score_to_letter`. -/
def gradeRank (g : String) : Nat :=
  if g = "E" then 0 else if g = "D" then 1 else if g = "C" then 2
  else if g = "B" then 3 else 4

/-- A profile value shaped the way the handler can actually consume it on
every path: a dict whose `allergies` entry (when present) is a string, so
that line 114's `.split(",")` does not raise. -/
def GoodProfileVal (v : PyVal) : Prop :=
  ∃ kvs, v = .vDict kvs ∧ ∃ s, dictGetD kvs "allergies" (.vStr "") = .vStr s

/-- An extraction payload shaped the way lines 185-198 can consume it: a
dict whose `nutrition_facts` entry (or its `{}` default) is a dict. -/
def GoodExtract (e : PyVal) : Prop :=
  ∃ ekvs, e = .vDict ekvs ∧ ∃ nkvs, dictGetD ekvs "nutrition_facts" (.vDict []) = .vDict nkvs

/-! ## Concrete scenario data

A registry product carrying a peanuts allergen tag and an already-supplied
nutriscore pair, a vision payload with Scenario B/D ingredients and
nutrition strings, and one world wiring them to the oracles. -/

/-- OpenFoodFacts product with `en:peanuts` declared and score 85, grade
`"a"` supplied. -/
def offPeanut : OffRaw :=
  { ingredients_text := "water, peanuts"
    allergens_tags := ["en:peanuts"]
    nutriments := [("energy-kcal_100g", .vNum 500)]
    nutriscore_grade := some "a"
    nutriscore_score := some 85
    nutriscore_score_opposite := none }

/-- Vision-extraction payload: Scenario B ingredients with Scenario D
nutrition strings. -/
def geminiPayload : PyVal :=
  .vDict [("ingredients", .vList [.vStr "water", .vStr "milk", .vStr "sugar"]),
          ("nutrition_facts", .vDict [("Calories", .vStr "120 kcal"), ("Sugar", .vStr "abc")])]

/-- Test world: barcode `"123"` resolves to `offPeanut`, every other
lookup fails; the vision extractor's text parses to `geminiPayload`. -/
def wReg : World :=
  { offResponse := fun b => if b = "123" then some offPeanut else none
    geminiText := "I am not JSON"
    geminiParsed := some geminiPayload
    pynutri := fun _ => .error "boom"
    predictLabel := fun _ => "Yes"
    transformRow := fun _ => []
    shapContrib := fun _ => []
    featureNames := none }

/-- Same world with an extractor whose output is not JSON-parseable. -/
def wRegNoJson : World :=
  { wReg with geminiParsed := none }

/-- Scenario A request: allergic-to-peanuts profile, barcode hit. -/
def reqAllergy : Request :=
  { hasImage := true
    profile := some (some (.vDict [("allergies", .vStr "peanuts"), ("diet", .vStr "none")]))
    barcode := "123" }

/-- Registry request with the documented default profile (no profile form
field). -/
def reqDefaultProfile : Request := { hasImage := true, profile := none, barcode := "123" }

/-- Registry request whose well-formed profile JSON carries a list-valued
`allergies` entry. -/
def reqListAllergy : Request :=
  { hasImage := true
    profile := some (some (.vDict [("allergies", .vList [.vStr "peanuts"])]))
    barcode := "123" }

/-- Scenario B request: vegan profile, no barcode. -/
def reqVegan : Request :=
  { hasImage := true
    profile := some (some (.vDict [("diet", .vStr "vegan")]))
    barcode := "" }

/-- Request with a barcode that the registry does not know. -/
def reqNoMatch : Request := { hasImage := true, profile := none, barcode := "999" }

/-- Registry request with an explicit profile whose allergy does not match
the product's allergen tags. -/
def reqSafeProfile : Request :=
  { hasImage := true
    profile := some (some (.vDict [("allergies", .vStr "milk")]))
    barcode := "123" }

/-! ## Helper lemmas -/

theorem query_openfoodfacts_eq_some {w : World} {b : String} {off : OffData}
    (h : query_openfoodfacts w b = some off) :
    ∃ p, w.offResponse b = some p ∧ off = offDataOf p := by
  unfold query_openfoodfacts at h
  match hw : w.offResponse b with
  | none => rw [hw] at h; cases h
  | some p => rw [hw] at h; exact ⟨p, rfl, (Option.some.inj h).symm⟩

theorem mapM_nutrient_cols (nkvs : List (String × PyVal)) (cols : List String) :
    (cols.mapM (fun col => do
      let val ← pyGetD (.vDict nkvs) col (.vStr "0")
      pure (col, PyVal.vNum (coerceNutrient val))) :
        Except String (List (String × PyVal))) =
    .ok (cols.map (fun col =>
      (col, PyVal.vNum (coerceNutrient (dictGetD nkvs col (.vStr "0")))))) := by
  induction cols with
  | nil => rfl
  | cons c cs ih => rw [List.mapM_cons, ih]; rfl

theorem buildRow_dicts (pkvs ekvs nkvs : List (String × PyVal))
    (hn : dictGetD ekvs "nutrition_facts" (.vDict []) = .vDict nkvs) :
    buildRow (.vDict pkvs) (.vDict ekvs) =
    .ok ([("allergies", flatten (dictGetD pkvs "allergies" (.vStr "none"))),
          ("diet", flatten (dictGetD pkvs "diet" (.vStr "none"))),
          ("conditions", flatten (dictGetD pkvs "conditions" (.vStr "none"))),
          ("ingredients", flatten (dictGetD ekvs "ingredients" (.vList [])))] ++
         nutrientColumns.map (fun col =>
           (col, PyVal.vNum (coerceNutrient (dictGetD nkvs col (.vStr "0")))))) := by
  unfold buildRow
  simp only [pyGetD, hn, mapM_nutrient_cols]
  rfl

theorem lookupStr_map_self (f : String → PyVal) (cols : List String) (col : String)
    (h : col ∈ cols) :
    lookupStr (cols.map (fun c => (c, f c))) col = some (f col) := by
  induction cols with
  | nil => cases h
  | cons c cs ih =>
    simp only [List.map_cons, lookupStr]
    by_cases hc : c = col
    · subst hc; simp
    · rw [if_neg hc]
      exact ih (List.mem_of_ne_of_mem (fun hx => hc hx.symm) h)

theorem lookupStr_append_of_none (l1 l2 : List (String × PyVal)) (col : String)
    (h : lookupStr l1 col = none) :
    lookupStr (l1 ++ l2) col = lookupStr l2 col := by
  induction l1 with
  | nil => rfl
  | cons kv rest ih =>
    obtain ⟨k, v⟩ := kv
    simp only [lookupStr, List.cons_append] at h ⊢
    by_cases hk : k = col
    · rw [if_pos hk] at h; cases h
    · rw [if_neg hk] at h ⊢
      exact ih h

theorem analyze_run_profile (w : World) (req : Request) (prof : PyVal)
    (himg : req.hasImage = true) (hp : profileOf req = some prof) :
    analyze_image w req =
      (if strTrim req.barcode = "" then
        visionPhase w (strTrim req.barcode) prof initNutriscore
      else
        match registryPhase w prof (strTrim req.barcode) with
        | .error msg => .crash msg
        | .ok (.stopped d) => .ok d
        | .ok (.through none ns) => visionPhase w (strTrim req.barcode) prof ns
        | .ok (.through (some extracted) ns) =>
            classifyPhase w (strTrim req.barcode) prof extracted ns) := by
  unfold analyze_image
  rw [himg, hp]
  rfl

theorem analyze_run_vision (w : World) (req : Request) (prof : PyVal)
    (himg : req.hasImage = true) (hp : profileOf req = some prof)
    (hv : strTrim req.barcode = "" ∨ query_openfoodfacts w (strTrim req.barcode) = none) :
    analyze_image w req = visionPhase w (strTrim req.barcode) prof initNutriscore := by
  rw [analyze_run_profile w req prof himg hp]
  by_cases hb : strTrim req.barcode = ""
  · rw [if_pos hb]
  · rw [if_neg hb]
    have hq : query_openfoodfacts w (strTrim req.barcode) = none := hv.resolve_left hb
    unfold registryPhase
    rw [hq]

theorem analyze_run_registry (w : World) (req : Request) (prof : PyVal) (off : OffData)
    (s : String)
    (himg : req.hasImage = true) (hp : profileOf req = some prof)
    (hb : strTrim req.barcode ≠ "")
    (hq : query_openfoodfacts w (strTrim req.barcode) = some off)
    (hall : pyGetD prof "allergies" (.vStr "") = .ok (.vStr s)) :
    analyze_image w req =
      (if hasAllergenConflict (userAllergiesOf s) (off.allergens.map normalizeAllergenTag) then
        .ok (hardStopDecision prof off (off.allergens.map normalizeAllergenTag))
      else
        classifyPhase w (strTrim req.barcode) prof (registryExtracted off)
          (registryNutriscore w off)) := by
  rw [analyze_run_profile w req prof himg hp, if_neg hb]
  unfold registryPhase
  rw [hq, hall]
  by_cases hc : hasAllergenConflict (userAllergiesOf s)
      (off.allergens.map normalizeAllergenTag) = true
  · simp only [hc, if_true]
  · simp only [Bool.not_eq_true] at hc
    simp only [hc, Bool.false_eq_true, if_false]

theorem visionPhase_parsed (w : World) (b : String) (prof ext : PyVal) (ns : NutriOut)
    (h : w.geminiParsed = some ext) :
    visionPhase w b prof ns = classifyPhase w b prof ext ns := by
  unfold visionPhase
  rw [h]

theorem classifyPhase_ok (w : World) (b : String) (prof ext : PyVal) (ns : NutriOut)
    (row : List (String × PyVal)) (h : buildRow prof ext = .ok row) :
    classifyPhase w b prof ext ns =
      .ok { profile := prof
            source := if b = "" then "Gemini" else "OpenFoodFacts"
            analysis := ext
            should_consume := prediction_str_of (w.predictLabel (reflattenRow row))
            nutriscore := ns
            reason := none
            explanation := some (explanationsOf
              (featureNamesOf w (w.transformRow (reflattenRow row)).length)
              (w.shapContrib (w.transformRow (reflattenRow row)))) } := by
  unfold classifyPhase
  rw [h]

theorem registryNutriscore_pass (w : World) (off : OffData) (sc : ℚ) (g : String)
    (hs : off.nutriscore.score = some sc) (hg : off.nutriscore.grade = some g)
    (hge : g ≠ "") (hgu : g ≠ "unknown") :
    registryNutriscore w off = off.nutriscore := by
  simp [registryNutriscore, optStrFalsy, hg, hs, hge, hgu]

theorem classifyPhase_ok_shape (w : World) (b : String) (prof ext : PyVal) (ns : NutriOut)
    (d : Decision) (h : classifyPhase w b prof ext ns = .ok d) :
    ∃ lab names contribs,
      d.reason = none
      ∧ d.should_consume = prediction_str_of lab
      ∧ d.explanation = some (explanationsOf names contribs)
      ∧ d.source = (if b = "" then "Gemini" else "OpenFoodFacts")
      ∧ d.nutriscore = ns ∧ d.analysis = ext := by
  unfold classifyPhase at h
  cases hr : buildRow prof ext with
  | error msg => rw [hr] at h; exact AnalyzeResult.noConfusion h
  | ok row =>
    rw [hr] at h
    have hd := (AnalyzeResult.ok.inj h).symm
    subst hd
    exact ⟨_, _, _, rfl, rfl, rfl, rfl, rfl, rfl⟩

theorem visionPhase_ok_shape (w : World) (b : String) (prof : PyVal) (ns : NutriOut)
    (d : Decision) (h : visionPhase w b prof ns = .ok d) :
    ∃ ext, w.geminiParsed = some ext ∧ classifyPhase w b prof ext ns = .ok d := by
  unfold visionPhase at h
  cases hg : w.geminiParsed with
  | none => rw [hg] at h; exact AnalyzeResult.noConfusion h
  | some ext => rw [hg] at h; exact ⟨ext, rfl, h⟩

theorem registryPhase_cases (w : World) (prof : PyVal) (b : String) (r : RegPhase)
    (h : registryPhase w prof b = .ok r) :
    (r = .through none initNutriscore ∧ query_openfoodfacts w b = none)
  ∨ (∃ off s, query_openfoodfacts w b = some off
      ∧ pyGetD prof "allergies" (.vStr "") = .ok (.vStr s)
      ∧ ((hasAllergenConflict (userAllergiesOf s) (off.allergens.map normalizeAllergenTag) = true
           ∧ r = .stopped (hardStopDecision prof off (off.allergens.map normalizeAllergenTag)))
        ∨ (hasAllergenConflict (userAllergiesOf s) (off.allergens.map normalizeAllergenTag) = false
           ∧ r = .through (some (registryExtracted off)) (registryNutriscore w off)))) := by
  unfold registryPhase at h
  cases hq : query_openfoodfacts w b with
  | none =>
    rw [hq] at h
    exact Or.inl ⟨(Except.ok.inj h).symm, rfl⟩
  | some off =>
    rw [hq] at h
    cases hg : pyGetD prof "allergies" (.vStr "") with
    | error msg => rw [hg] at h; exact Except.noConfusion h
    | ok av =>
      rw [hg] at h
      cases av with
      | vStr s =>
        have h' : (if hasAllergenConflict (userAllergiesOf s)
              (off.allergens.map normalizeAllergenTag) = true then
              (Except.ok (RegPhase.stopped (hardStopDecision prof off
                (off.allergens.map normalizeAllergenTag))) : Except String RegPhase)
            else
              Except.ok (RegPhase.through (some (registryExtracted off))
                (registryNutriscore w off))) = Except.ok r := h
        rcases Bool.eq_false_or_eq_true
            (hasAllergenConflict (userAllergiesOf s)
              (off.allergens.map normalizeAllergenTag)) with hc | hc
        · rw [if_pos hc] at h'
          exact Or.inr ⟨off, s, rfl, rfl, Or.inl ⟨hc, (Except.ok.inj h').symm⟩⟩
        · rw [if_neg (by simp [hc])] at h'
          exact Or.inr ⟨off, s, rfl, rfl, Or.inr ⟨hc, (Except.ok.inj h').symm⟩⟩
      | vNone => exact Except.noConfusion h
      | vBool b' => exact Except.noConfusion h
      | vNum q => exact Except.noConfusion h
      | vList xs => exact Except.noConfusion h
      | vDict kvs => exact Except.noConfusion h

theorem analyze_ok_shape (w : World) (req : Request) (d : Decision)
    (h : analyze_image w req = .ok d) :
    (∃ prof off, d = hardStopDecision prof off (off.allergens.map normalizeAllergenTag)
       ∧ strTrim req.barcode ≠ ""
       ∧ ∃ p, w.offResponse (strTrim req.barcode) = some p)
  ∨ (∃ lab names contribs,
       d.reason = none
       ∧ d.should_consume = prediction_str_of lab
       ∧ d.explanation = some (explanationsOf names contribs)
       ∧ d.source = (if strTrim req.barcode = "" then "Gemini" else "OpenFoodFacts")) := by
  by_cases himg : req.hasImage = true
  case neg =>
    have himgf : req.hasImage = false := by
      revert himg; cases req.hasImage <;> simp
    unfold analyze_image at h
    rw [himgf] at h
    exact AnalyzeResult.noConfusion h
  case pos =>
    cases hp : profileOf req with
    | none =>
      unfold analyze_image at h
      rw [himg, hp] at h
      exact AnalyzeResult.noConfusion h
    | some prof =>
      rw [analyze_run_profile w req prof himg hp] at h
      by_cases hb : strTrim req.barcode = ""
      · rw [if_pos hb] at h
        obtain ⟨ext, -, hcl⟩ := visionPhase_ok_shape _ _ _ _ _ h
        obtain ⟨lab, names, contribs, h1, h2, h3, h4, -, -⟩ := classifyPhase_ok_shape _ _ _ _ _ _ hcl
        exact Or.inr ⟨lab, names, contribs, h1, h2, h3, h4⟩
      · rw [if_neg hb] at h
        cases hreg : registryPhase w prof (strTrim req.barcode) with
        | error msg => rw [hreg] at h; exact AnalyzeResult.noConfusion h
        | ok r =>
          rw [hreg] at h
          rcases registryPhase_cases w prof _ r hreg with ⟨hr1, -⟩ | ⟨off, s, hq, -, hcase⟩
          · subst hr1
            obtain ⟨ext, -, hcl⟩ := visionPhase_ok_shape _ _ _ _ _ h
            obtain ⟨lab, names, contribs, h1, h2, h3, h4, -, -⟩ :=
              classifyPhase_ok_shape _ _ _ _ _ _ hcl
            exact Or.inr ⟨lab, names, contribs, h1, h2, h3, h4⟩
          · rcases hcase with ⟨-, hr⟩ | ⟨-, hr⟩
            · subst hr
              obtain ⟨p, hp2, -⟩ := query_openfoodfacts_eq_some hq
              exact Or.inl ⟨prof, off, (AnalyzeResult.ok.inj h).symm, hb, p, hp2⟩
            · subst hr
              obtain ⟨lab, names, contribs, h1, h2, h3, h4, -, -⟩ :=
                classifyPhase_ok_shape _ _ _ _ _ _ h
              exact Or.inr ⟨lab, names, contribs, h1, h2, h3, h4⟩

/-! ## Claim C1 -/

/-- C1 counterexample: in Scenario A served from the registry (profile
allergies `"peanuts"`, product allergens `["en:peanuts"]`), the hard stop
fires with `should_consume = "No"`, score 30, grade `"D"`, but the reason is
the fixed string `"Allergen conflict detected from OpenFoodFacts"`, which
does not mention the matched token `"peanuts"`. -/
theorem c1_reason_counterexample :
    resultShould (analyze_image wReg reqAllergy) = some "No"
    ∧ resultScore (analyze_image wReg reqAllergy) = some 30
    ∧ resultGrade (analyze_image wReg reqAllergy) = some "D"
    ∧ resultReason (analyze_image wReg reqAllergy) =
        some "Allergen conflict detected from OpenFoodFacts"
    ∧ strMentions "Allergen conflict detected from OpenFoodFacts" "peanuts" = false :=
  ⟨rfl, rfl, rfl, rfl, by decide⟩

/-- C1 amended: for every registry-served request whose string-valued
allergies field yields a normalized token that matches a normalized product
allergen tag, the endpoint returns the hard stop: `should_consume = "No"`,
forced score 30, forced grade `"D"`, the fixed reason string naming the
source (not the matched token), an absent explanation, and the outcome is
unchanged under any replacement of the classifier, preprocessing, SHAP and
pynutriscore oracles (they are never consulted). -/
theorem c1_hard_stop (w : World) (req : Request) (kvs : List (String × PyVal))
    (s : String) (p : OffRaw)
    (himg : req.hasImage = true)
    (hprof : req.profile = some (some (.vDict kvs)))
    (hb : strTrim req.barcode ≠ "")
    (hoff : w.offResponse (strTrim req.barcode) = some p)
    (hall : dictGetD kvs "allergies" (.vStr "") = .vStr s)
    (hconf : hasAllergenConflict (userAllergiesOf s)
      (p.allergens_tags.map normalizeAllergenTag) = true) :
    analyze_image w req = .ok (hardStopDecision (.vDict kvs) (offDataOf p)
        (p.allergens_tags.map normalizeAllergenTag))
    ∧ resultShould (analyze_image w req) = some "No"
    ∧ resultScore (analyze_image w req) = some 30
    ∧ resultGrade (analyze_image w req) = some (map_score_to_letter 30)
    ∧ map_score_to_letter 30 = "D"
    ∧ resultReason (analyze_image w req) =
        some "Allergen conflict detected from OpenFoodFacts"
    ∧ (hardStopDecision (.vDict kvs) (offDataOf p)
        (p.allergens_tags.map normalizeAllergenTag)).explanation = none
    ∧ (∀ pl tr sc fn pn,
        analyze_image
          { w with
            predictLabel := pl
            transformRow := tr
            shapContrib := sc
            featureNames := fn
            pynutri := pn } req
        = analyze_image w req) := by
  have hp : profileOf req = some (.vDict kvs) := by unfold profileOf; rw [hprof]
  have hallE : pyGetD (.vDict kvs) "allergies" (.vStr "") = .ok (.vStr s) := by
    rw [← hall]; rfl
  have key : ∀ w' : World, w'.offResponse = w.offResponse →
      analyze_image w' req = .ok (hardStopDecision (.vDict kvs) (offDataOf p)
        (p.allergens_tags.map normalizeAllergenTag)) := by
    intro w' hw
    have hq : query_openfoodfacts w' (strTrim req.barcode) = some (offDataOf p) := by
      unfold query_openfoodfacts; rw [hw, hoff]
    rw [analyze_run_registry w' req (.vDict kvs) (offDataOf p) s himg hp hb hq hallE]
    have ha : (offDataOf p).allergens = p.allergens_tags := rfl
    rw [ha, if_pos hconf]
  have hmain := key w rfl
  refine ⟨hmain, ?_, ?_, ?_, rfl, ?_, rfl, ?_⟩
  · rw [hmain]; rfl
  · rw [hmain]; rfl
  · rw [hmain]; rfl
  · rw [hmain]; rfl
  · intro pl tr sc fn pn
    have hupd := key
      { w with
        predictLabel := pl
        transformRow := tr
        shapContrib := sc
        featureNames := fn
        pynutri := pn } rfl
    exact hupd.trans (key w rfl).symm

/-- Witness for `c1_hard_stop`, at Scenario A. -/
theorem c1_hard_stop_witness :
    resultShould (analyze_image wReg reqAllergy) = some "No"
    ∧ resultScore (analyze_image wReg reqAllergy) = some 30 :=
  have h := c1_hard_stop wReg reqAllergy
    [("allergies", .vStr "peanuts"), ("diet", .vStr "none")] "peanuts" offPeanut
    rfl rfl (by decide) rfl rfl (by decide)
  ⟨h.2.1, h.2.2.1⟩

/-! ## Claim C2 -/

/-- C2 counterexample: on the registry pass-through path the supplied pair
score 85 / grade `"a"` is used verbatim, so the decision's grade is not
`map_score_to_letter 85 = "A"`: the step function does not determine the
grade on that scoring path. -/
theorem c2_grade_counterexample :
    resultScore (analyze_image wReg reqDefaultProfile) = some 85
    ∧ resultGrade (analyze_image wReg reqDefaultProfile) = some "a"
    ∧ map_score_to_letter 85 = "A"
    ∧ resultGrade (analyze_image wReg reqDefaultProfile) ≠
        some (map_score_to_letter 85) :=
  ⟨rfl, rfl, rfl, by decide⟩

/-- C2 amended: `map_score_to_letter` is exactly the claimed monotonic step
function (with the five documented sample points), but the endpoint applies
it only to the hard-stop forced score 30; on the registry pass-through and
pynutriscore fallback paths the externally supplied grade is used verbatim. -/
theorem c2_grade_mapping :
    (∀ s : ℚ, (map_score_to_letter s = "A" ↔ 80 ≤ s)
      ∧ (map_score_to_letter s = "B" ↔ 60 ≤ s ∧ s < 80)
      ∧ (map_score_to_letter s = "C" ↔ 40 ≤ s ∧ s < 60)
      ∧ (map_score_to_letter s = "D" ↔ 20 ≤ s ∧ s < 40)
      ∧ (map_score_to_letter s = "E" ↔ s < 20))
    ∧ (∀ s t : ℚ, s ≤ t →
        gradeRank (map_score_to_letter s) ≤ gradeRank (map_score_to_letter t))
    ∧ (∀ prof off tags, (hardStopDecision prof off tags).nutriscore.grade =
        some (map_score_to_letter 30))
    ∧ map_score_to_letter 80 = "A" ∧ map_score_to_letter 79 = "B"
    ∧ map_score_to_letter 20 = "D" ∧ map_score_to_letter 19 = "E"
    ∧ map_score_to_letter 0 = "E" := by
  refine ⟨?_, ?_, fun prof off tags => rfl, rfl, rfl, rfl, rfl, rfl⟩
  · intro s
    unfold map_score_to_letter
    refine ⟨?_, ?_, ?_, ?_, ?_⟩ <;>
      (split_ifs with h1 h2 h3 h4 <;>
        constructor <;>
        intro hx <;>
        (try obtain ⟨hx1, hx2⟩ := hx) <;>
        first
          | rfl
          | linarith
          | (exact absurd hx (by decide))
          | (constructor <;> linarith))
  · intro s t hst
    unfold map_score_to_letter
    split_ifs <;> first | decide | (exfalso; linarith)

/-- Witness for `c2_grade_mapping`. -/
theorem c2_grade_mapping_witness :
    gradeRank (map_score_to_letter 10) ≤ gradeRank (map_score_to_letter 90) :=
  c2_grade_mapping.2.1 10 90 (by decide)

/-! ## Claim C3 -/

/-- C3 counterexample: the feature row built from the default profile and the
test extraction payload has eleven keys, not eight; and a well-formed but
non-dict extraction payload makes the row construction raise instead of
defaulting. -/
theorem c3_row_counterexample :
    (∃ row, buildRow defaultProfile geminiPayload = .ok row
      ∧ row.length = 11 ∧ row.length ≠ 8)
    ∧ (∃ msg, buildRow defaultProfile (.vList []) = .error msg) :=
  ⟨⟨_, rfl, rfl, by decide⟩, ⟨_, rfl⟩⟩

/-- C3 amended: for every dict-shaped profile and dict-shaped extraction
payload whose nutrition facts are a mapping, the row builds without raising
and has exactly the eleven keys allergies, diet, conditions, ingredients,
Calories, Total Fat, Saturated Fat, Sodium, Total Carbohydrate, Sugar,
Protein in that fixed order; each of the seven nutrient columns is a number
obtained from the looked-up value by the string-parse-or-coerce rule, a
missing key defaults to 0.0, and the leading-token parse sends
`"120 kcal"` to `120.0` and `"abc"` to `0.0`. -/
theorem c3_feature_row (pkvs ekvs nkvs : List (String × PyVal))
    (hn : dictGetD ekvs "nutrition_facts" (.vDict []) = .vDict nkvs) :
    (∃ row, buildRow (.vDict pkvs) (.vDict ekvs) = .ok row
      ∧ row.map Prod.fst =
          ["allergies", "diet", "conditions", "ingredients"] ++ nutrientColumns
      ∧ (∀ col ∈ nutrientColumns,
          lookupStr row col =
            some (.vNum (coerceNutrient (dictGetD nkvs col (.vStr "0")))))
      ∧ (∀ col, lookupStr nkvs col = none →
          coerceNutrient (dictGetD nkvs col (.vStr "0")) = 0))
    ∧ coerceNutrient (.vStr "120 kcal") = 120
    ∧ coerceNutrient (.vStr "abc") = 0 := by
  refine ⟨⟨_, buildRow_dicts pkvs ekvs nkvs hn, ?_, ?_, ?_⟩, by decide, rfl⟩
  · simp [nutrientColumns]
  · intro col hcol
    fin_cases hcol <;> rfl
  · intro col hmiss
    unfold dictGetD
    rw [hmiss]
    decide

/-- Witness for `c3_feature_row`, at the default profile and the test
extraction payload. -/
theorem c3_feature_row_witness :
    coerceNutrient (.vStr "120 kcal") = 120 ∧ coerceNutrient (.vStr "abc") = 0 :=
  have h := c3_feature_row
    [("allergies", .vStr "none"), ("diet", .vStr "none"), ("conditions", .vStr "none")]
    [("ingredients", .vList [.vStr "water", .vStr "milk", .vStr "sugar"]),
     ("nutrition_facts", .vDict [("Calories", .vStr "120 kcal"), ("Sugar", .vStr "abc")])]
    [("Calories", .vStr "120 kcal"), ("Sugar", .vStr "abc")] rfl
  ⟨h.2.1, h.2.2⟩

/-! ## Further helper lemmas -/

theorem buildRow_good (prof ext : PyVal) (hp : GoodProfileVal prof)
    (he : GoodExtract ext) : ∃ row, buildRow prof ext = .ok row := by
  obtain ⟨pkvs, hpe, s, -⟩ := hp
  obtain ⟨ekvs, hee, nkvs, hn⟩ := he
  subst hpe
  subst hee
  exact ⟨_, buildRow_dicts pkvs ekvs nkvs hn⟩

theorem goodExtract_registry (off : OffData) : GoodExtract (registryExtracted off) :=
  ⟨_, rfl, _, rfl⟩

/-! ## Claim C4 -/

/-- C4 counterexample: in Scenario B (vegan profile, ingredients water, milk,
sugar, no registry score) the decision's nutriscore is score None with grade
`"unknown"`, not the claimed heuristic 100-20=80 with grade `"A"`: no
heuristic fallback exists in the code. -/
theorem c4_no_heuristic_counterexample :
    resultScore (analyze_image wReg reqVegan) = none
    ∧ resultGrade (analyze_image wReg reqVegan) = some "unknown"
    ∧ resultGrade (analyze_image wReg reqVegan) ≠ some "A"
    ∧ resultScore (analyze_image wReg reqVegan) ≠ some 80 :=
  ⟨rfl, rfl, by decide, by decide⟩

/-- C4 amended: when structured per-100g values are entirely unavailable (the
product record comes from vision extraction), no heuristic score is computed
at all: the decision keeps the initial nutriscore, score None and grade
`"unknown"`. -/
theorem c4_vision_keeps_unknown (w : World) (req : Request) (prof ext : PyVal)
    (himg : req.hasImage = true) (hp : profileOf req = some prof)
    (hv : strTrim req.barcode = "" ∨ query_openfoodfacts w (strTrim req.barcode) = none)
    (hg : w.geminiParsed = some ext)
    (hprofG : GoodProfileVal prof) (hextG : GoodExtract ext) :
    ∃ d, analyze_image w req = .ok d ∧ d.nutriscore = initNutriscore
      ∧ initNutriscore.score = none ∧ initNutriscore.grade = some "unknown" := by
  obtain ⟨row, hrow⟩ := buildRow_good prof ext hprofG hextG
  rw [analyze_run_vision w req prof himg hp hv,
      visionPhase_parsed w (strTrim req.barcode) prof ext initNutriscore hg,
      classifyPhase_ok w (strTrim req.barcode) prof ext initNutriscore row hrow]
  exact ⟨_, rfl, rfl, rfl, rfl⟩

/-- Witness for `c4_vision_keeps_unknown`, at Scenario B. -/
theorem c4_vision_keeps_unknown_witness :
    ∃ d, analyze_image wReg reqVegan = .ok d ∧ d.nutriscore = initNutriscore
      ∧ initNutriscore.score = none ∧ initNutriscore.grade = some "unknown" :=
  c4_vision_keeps_unknown wReg reqVegan (.vDict [("diet", .vStr "vegan")]) geminiPayload
    rfl rfl (Or.inl rfl) rfl ⟨_, rfl, "", rfl⟩ ⟨_, rfl, _, rfl⟩

/-! ## Claim C5 -/

/-- C5 counterexample: a request with an image and a well-formed profile JSON
(`{"allergies": ["peanuts"]}`) whose registry lookup succeeds makes the
handler raise an uncaught `AttributeError` (line 114 calls `.split` on a
list) instead of returning a Decision or one of the three sanctioned error
responses. -/
theorem c5_crash_counterexample :
    resultIsCrash (analyze_image wReg reqListAllergy) = true
    ∧ reqListAllergy.hasImage = true
    ∧ reqListAllergy.profile =
        some (some (.vDict [("allergies", .vList [.vStr "peanuts"])]))
    ∧ wReg.geminiParsed = some geminiPayload :=
  ⟨rfl, rfl, rfl, rfl⟩

/-- C5 amended: the missing-image and malformed-profile cases return the 400
responses, a failed vision parse returns the 500 response with the raw
extractor text attached and no Decision, and a Decision is always produced
provided additionally that the profile and extraction payload have the
dict/string shapes the handler dereferences without guards (otherwise an
uncaught exception escapes, as the counterexample shows). -/
theorem c5_outcomes (w : World) (req : Request) :
    (req.hasImage = false →
      analyze_image w req = .httpError 400 "No image uploaded" none)
    ∧ (req.hasImage = true → req.profile = some none →
        analyze_image w req = .httpError 400 "Invalid JSON in profile" none)
    ∧ (∀ prof, req.hasImage = true → profileOf req = some prof →
        (strTrim req.barcode = "" ∨
          query_openfoodfacts w (strTrim req.barcode) = none) →
        w.geminiParsed = none →
        analyze_image w req =
          .httpError 500 "Gemini output not JSON parseable" (some w.geminiText))
    ∧ (∀ prof, req.hasImage = true → profileOf req = some prof →
        GoodProfileVal prof →
        ((strTrim req.barcode ≠ "" ∧
            ∃ off, query_openfoodfacts w (strTrim req.barcode) = some off)
          ∨ ((strTrim req.barcode = "" ∨
                query_openfoodfacts w (strTrim req.barcode) = none)
              ∧ ∃ ext, w.geminiParsed = some ext ∧ GoodExtract ext)) →
        ∃ d, analyze_image w req = .ok d) := by
  refine ⟨?_, ?_, ?_, ?_⟩
  · intro h
    unfold analyze_image
    rw [h]
    rfl
  · intro himg hpm
    have hp : profileOf req = none := by unfold profileOf; rw [hpm]
    unfold analyze_image
    rw [himg, hp]
    rfl
  · intro prof himg hp hv hgem
    rw [analyze_run_vision w req prof himg hp hv]
    unfold visionPhase
    rw [hgem]
  · intro prof himg hp hpg hcase
    rcases hcase with ⟨hb, off, hq⟩ | ⟨hv, ext, hgem, hextG⟩
    · obtain ⟨pkvs, hpe, s, hps⟩ := hpg
      subst hpe
      have hallE : pyGetD (.vDict pkvs) "allergies" (.vStr "") = .ok (.vStr s) := by
        rw [← hps]; rfl
      rw [analyze_run_registry w req (.vDict pkvs) off s himg hp hb hq hallE]
      rcases Bool.eq_false_or_eq_true (hasAllergenConflict (userAllergiesOf s)
        (off.allergens.map normalizeAllergenTag)) with hc | hc
      · rw [if_pos hc]
        exact ⟨_, rfl⟩
      · rw [if_neg (by simp [hc])]
        obtain ⟨row, hrow⟩ := buildRow_good (.vDict pkvs) (registryExtracted off)
          ⟨pkvs, rfl, s, hps⟩ (goodExtract_registry off)
        rw [classifyPhase_ok w (strTrim req.barcode) (.vDict pkvs)
          (registryExtracted off) (registryNutriscore w off) row hrow]
        exact ⟨_, rfl⟩
    · obtain ⟨row, hrow⟩ := buildRow_good prof ext hpg hextG
      rw [analyze_run_vision w req prof himg hp hv,
          visionPhase_parsed w (strTrim req.barcode) prof ext initNutriscore hgem,
          classifyPhase_ok w (strTrim req.barcode) prof ext initNutriscore row hrow]
      exact ⟨_, rfl⟩

/-- Witness for `c5_outcomes`, at the default-profile registry request. -/
theorem c5_outcomes_witness :
    ∃ d, analyze_image wReg reqDefaultProfile = .ok d :=
  (c5_outcomes wReg reqDefaultProfile).2.2.2 defaultProfile rfl rfl
    ⟨_, rfl, "none", rfl⟩ (Or.inl ⟨by decide, offDataOf offPeanut, rfl⟩)

/-! ## Claim C6 -/

/-- C6 counterexample: a registry product that supplies score 85 and grade
`"a"` still yields the forced 30/`"D"` pair when the allergen hard stop
fires, so the supplied pair is not universally passed through unchanged. -/
theorem c6_hardstop_overrides_counterexample :
    offPeanut.nutriscore_score = some 85
    ∧ offPeanut.nutriscore_grade = some "a"
    ∧ resultScore (analyze_image wReg reqAllergy) = some 30
    ∧ resultGrade (analyze_image wReg reqAllergy) = some "D"
    ∧ resultScore (analyze_image wReg reqAllergy) ≠ some 85 :=
  ⟨rfl, rfl, rfl, rfl, by decide⟩

/-- C6 amended: for every registry product supplying a score and a grade
(non-null, non-empty, not "unknown"), provided no allergen hard stop fires,
the decision's nutriscore is the supplied pair unchanged and the pynutriscore
fallback is never consulted (the outcome is invariant under replacing it). -/
theorem c6_registry_passthrough (w : World) (req : Request)
    (kvs : List (String × PyVal)) (s : String) (p : OffRaw) (sc : ℚ) (g : String)
    (himg : req.hasImage = true)
    (hprof : req.profile = some (some (.vDict kvs)))
    (hb : strTrim req.barcode ≠ "")
    (hoff : w.offResponse (strTrim req.barcode) = some p)
    (hall : dictGetD kvs "allergies" (.vStr "") = .vStr s)
    (hnoconf : hasAllergenConflict (userAllergiesOf s)
      (p.allergens_tags.map normalizeAllergenTag) = false)
    (hsc : p.nutriscore_score = some sc)
    (hgr : p.nutriscore_grade = some g)
    (hge : g ≠ "") (hgu : g ≠ "unknown") :
    resultScore (analyze_image w req) = some sc
    ∧ resultGrade (analyze_image w req) = some g
    ∧ (∀ pn, analyze_image { w with pynutri := pn } req = analyze_image w req) := by
  have hp : profileOf req = some (.vDict kvs) := by unfold profileOf; rw [hprof]
  have hallE : pyGetD (.vDict kvs) "allergies" (.vStr "") = .ok (.vStr s) := by
    rw [← hall]; rfl
  obtain ⟨row, hrow⟩ := buildRow_good (.vDict kvs) (registryExtracted (offDataOf p))
    ⟨kvs, rfl, s, hall⟩ (goodExtract_registry (offDataOf p))
  have hscore : (offDataOf p).nutriscore.score = some sc := hsc
  have hgrade : (offDataOf p).nutriscore.grade = some g := hgr
  have key : ∀ w' : World, w'.offResponse = w.offResponse →
      analyze_image w' req = .ok
        { profile := .vDict kvs
          source := if strTrim req.barcode = "" then "Gemini" else "OpenFoodFacts"
          analysis := registryExtracted (offDataOf p)
          should_consume := prediction_str_of (w'.predictLabel (reflattenRow row))
          nutriscore := (offDataOf p).nutriscore
          reason := none
          explanation := some (explanationsOf
            (featureNamesOf w' (w'.transformRow (reflattenRow row)).length)
            (w'.shapContrib (w'.transformRow (reflattenRow row)))) } := by
    intro w' hw
    have hq : query_openfoodfacts w' (strTrim req.barcode) = some (offDataOf p) := by
      unfold query_openfoodfacts; rw [hw, hoff]
    rw [analyze_run_registry w' req (.vDict kvs) (offDataOf p) s himg hp hb hq hallE]
    have ha : (offDataOf p).allergens = p.allergens_tags := rfl
    rw [ha, if_neg (by simp [hnoconf]),
        registryNutriscore_pass w' (offDataOf p) sc g hscore hgrade hge hgu,
        classifyPhase_ok w' (strTrim req.barcode) (.vDict kvs)
          (registryExtracted (offDataOf p)) ((offDataOf p).nutriscore) row hrow]
  have hmain := key w rfl
  refine ⟨?_, ?_, ?_⟩
  · rw [hmain]; exact hscore
  · rw [hmain]; exact hgrade
  · intro pn
    have hupd := key { w with pynutri := pn } rfl
    rw [hupd, hmain]
    rfl

/-- Witness for `c6_registry_passthrough`. -/
theorem c6_registry_passthrough_witness :
    resultScore (analyze_image wReg reqSafeProfile) = some 85
    ∧ resultGrade (analyze_image wReg reqSafeProfile) = some "a" :=
  have h := c6_registry_passthrough wReg reqSafeProfile
    [("allergies", .vStr "milk")] "milk" offPeanut 85 "a"
    rfl rfl (by decide) rfl rfl (by decide) rfl rfl (by decide) (by decide)
  ⟨h.1, h.2.1⟩

/-! ## Claim C7 -/

/-- C7 counterexample: with a barcode whose lookup returns no match, the
record is produced by vision extraction (the analysis is the Gemini
payload), yet the decision's source field says `"OpenFoodFacts"`: the label
follows barcode presence, not the source that actually produced the
record. -/
theorem c7_source_counterexample :
    wReg.offResponse (strTrim reqNoMatch.barcode) = none
    ∧ resultSource (analyze_image wReg reqNoMatch) = some "OpenFoodFacts"
    ∧ resultAnalysis (analyze_image wReg reqNoMatch) = some geminiPayload
    ∧ resultSource (analyze_image wReg reqNoMatch) ≠ some "Gemini" :=
  ⟨rfl, rfl, rfl, by decide⟩

/-- C7 amended: exactly one source produces the record (registry when the
lookup succeeds and no hard stop fires, vision otherwise), but the
decision's source field is determined by barcode presence alone:
`"OpenFoodFacts"` whenever the (trimmed) barcode is non-empty — even when
the lookup failed and vision produced the record — and `"Gemini"`
otherwise. -/
theorem c7_source_label (w : World) (req : Request) :
    (∀ d, analyze_image w req = .ok d →
      d.source = (if strTrim req.barcode = "" then "Gemini" else "OpenFoodFacts"))
    ∧ (∀ prof ext, req.hasImage = true → profileOf req = some prof →
        (strTrim req.barcode = "" ∨
          query_openfoodfacts w (strTrim req.barcode) = none) →
        w.geminiParsed = some ext → GoodProfileVal prof → GoodExtract ext →
        ∃ d, analyze_image w req = .ok d ∧ d.analysis = ext)
    ∧ (∀ kvs s p, req.hasImage = true →
        req.profile = some (some (.vDict kvs)) →
        strTrim req.barcode ≠ "" →
        w.offResponse (strTrim req.barcode) = some p →
        dictGetD kvs "allergies" (.vStr "") = .vStr s →
        hasAllergenConflict (userAllergiesOf s)
          (p.allergens_tags.map normalizeAllergenTag) = false →
        ∃ d, analyze_image w req = .ok d
          ∧ d.analysis = registryExtracted (offDataOf p)) := by
  refine ⟨?_, ?_, ?_⟩
  · intro d h
    rcases analyze_ok_shape w req d h with ⟨prof, off, hd, hb, -⟩ | ⟨-, -, -, -, -, -, h4⟩
    · rw [hd, if_neg hb]
      rfl
    · exact h4
  · intro prof ext himg hp hv hgem hpg heg
    obtain ⟨row, hrow⟩ := buildRow_good prof ext hpg heg
    rw [analyze_run_vision w req prof himg hp hv,
        visionPhase_parsed w (strTrim req.barcode) prof ext initNutriscore hgem,
        classifyPhase_ok w (strTrim req.barcode) prof ext initNutriscore row hrow]
    exact ⟨_, rfl, rfl⟩
  · intro kvs s p himg hprof hb hoff hall hnoconf
    have hp : profileOf req = some (.vDict kvs) := by unfold profileOf; rw [hprof]
    have hallE : pyGetD (.vDict kvs) "allergies" (.vStr "") = .ok (.vStr s) := by
      rw [← hall]; rfl
    have hq : query_openfoodfacts w (strTrim req.barcode) = some (offDataOf p) := by
      unfold query_openfoodfacts; rw [hoff]
    obtain ⟨row, hrow⟩ := buildRow_good (.vDict kvs) (registryExtracted (offDataOf p))
      ⟨kvs, rfl, s, hall⟩ (goodExtract_registry (offDataOf p))
    rw [analyze_run_registry w req (.vDict kvs) (offDataOf p) s himg hp hb hq hallE]
    have ha : (offDataOf p).allergens = p.allergens_tags := rfl
    rw [ha, if_neg (by simp [hnoconf]),
        classifyPhase_ok w (strTrim req.barcode) (.vDict kvs)
          (registryExtracted (offDataOf p)) (registryNutriscore w (offDataOf p)) row hrow]
    exact ⟨_, rfl, rfl⟩

/-- Witness for `c7_source_label`, at the Scenario A hard-stop run. -/
theorem c7_source_label_witness :
    (hardStopDecision
      (.vDict [("allergies", .vStr "peanuts"), ("diet", .vStr "none")])
      (offDataOf offPeanut)
      (offPeanut.allergens_tags.map normalizeAllergenTag)).source =
      (if strTrim reqAllergy.barcode = "" then "Gemini" else "OpenFoodFacts") :=
  (c7_source_label wReg reqAllergy).1 _ rfl

/-! ## Claim C8 -/

/-- C8: whenever classification runs, the explanation has at most 8 entries;
the zipped name-contribution pairs are sorted by descending absolute
contribution with ties keeping original order (stable sort); directions use
the fixed thresholds (< -0.01 unfavorable, > 0.01 favorable, neutral
otherwise); and a failed feature-name introspection falls back to positional
names feature_0, feature_1, ... instead of failing. -/
theorem c8_attribution (w : World) (req : Request) :
    (∀ d e, analyze_image w req = .ok d → d.explanation = some e → e.length ≤ 8)
    ∧ (∀ (names : List String) (contribs : List ℚ),
        (sortedContributions names contribs).Pairwise (fun a b => |b.2| ≤ |a.2|))
    ∧ (∀ (names : List String) (contribs : List ℚ) (a b : String × ℚ),
        List.Sublist [a, b] (names.zip contribs) → |a.2| = |b.2| →
        List.Sublist [a, b] (sortedContributions names contribs))
    ∧ (∀ v : ℚ,
        (v < -pointZeroOne → shapWord v = "Negative" ∧ shapDirection v = "🔴")
        ∧ (pointZeroOne < v → shapWord v = "Positive" ∧ shapDirection v = "🟢")
        ∧ (-pointZeroOne ≤ v → v ≤ pointZeroOne →
            shapWord v = "Neutral" ∧ shapDirection v = "🟡"))
    ∧ (∀ n, w.featureNames = none →
        featureNamesOf w n =
          (List.range n).map (fun i => "feature_" ++ toString i)) := by
  have htrans : ∀ a b c : String × ℚ, shapLE a b → shapLE b c → shapLE a c := by
    intro a b c hab hbc
    simp only [shapLE, decide_eq_true_eq] at hab hbc ⊢
    exact le_trans hbc hab
  have htotal : ∀ a b : String × ℚ, shapLE a b || shapLE b a := by
    intro a b
    simp only [shapLE, Bool.or_eq_true, decide_eq_true_eq]
    exact le_total _ _
  refine ⟨?_, ?_, ?_, ?_, ?_⟩
  · intro d e h he
    rcases analyze_ok_shape w req d h with ⟨prof, off, hd, -, -⟩ | ⟨lab, names, contribs, -, -, h3, -⟩
    · rw [hd] at he
      exact Option.noConfusion he
    · rw [h3] at he
      have he2 := Option.some.inj he
      rw [← he2]
      unfold explanationsOf
      rw [List.length_map]
      exact List.length_take_le 8 _
  · intro names contribs
    exact (List.sorted_mergeSort htrans htotal (names.zip contribs)).imp
      (fun h => by simpa [shapLE, decide_eq_true_eq] using h)
  · intro names contribs a b hsub habs
    have hab : shapLE a b := by
      simp only [shapLE, decide_eq_true_eq]
      exact le_of_eq (by rw [habs])
    exact List.pair_sublist_mergeSort htrans htotal hab hsub
  · intro v
    have hpz : (0 : ℚ) < pointZeroOne := by decide
    refine ⟨?_, ?_, ?_⟩
    · intro hneg
      unfold shapWord shapDirection
      rw [if_pos hneg, if_pos hneg]
      exact ⟨rfl, rfl⟩
    · intro hpos
      have hnn : ¬(v < -pointZeroOne) := by intro hcon; linarith
      unfold shapWord shapDirection
      rw [if_neg hnn, if_pos hpos, if_neg hnn, if_pos hpos]
      exact ⟨rfl, rfl⟩
    · intro hge hle
      have h1 : ¬(v < -pointZeroOne) := not_lt.mpr hge
      have h2 : ¬(pointZeroOne < v) := not_lt.mpr hle
      unfold shapWord shapDirection
      rw [if_neg h1, if_neg h2, if_neg h1, if_neg h2]
      exact ⟨rfl, rfl⟩
  · intro n h
    unfold featureNamesOf
    rw [h]
    rfl

/-- Witness for `c8_attribution`, at the contribution value 5. -/
theorem c8_attribution_witness :
    shapWord 5 = "Positive" ∧ shapDirection 5 = "🟢" :=
  ((c8_attribution wReg reqVegan).2.2.2.1 5).2.1 (by decide)

/-! ## Claim C9 -/

/-- C9: the decision's should_consume is "Yes" exactly when the pipeline's
label equals "Yes" and "No" for every other label (fail-closed); an
unexpected label is never propagated as an error — every produced decision
carries "Yes" or "No". -/
theorem c9_label_fail_closed (w : World) (req : Request) :
    (∀ label, prediction_str_of label = "Yes" ↔ label = "Yes")
    ∧ (∀ label, label ≠ "Yes" → prediction_str_of label = "No")
    ∧ (∀ b prof ext ns row, buildRow prof ext = .ok row →
        ∃ d, classifyPhase w b prof ext ns = .ok d
          ∧ d.should_consume = prediction_str_of (w.predictLabel (reflattenRow row)))
    ∧ (∀ d, analyze_image w req = .ok d →
        d.should_consume = "Yes" ∨ d.should_consume = "No") := by
  refine ⟨?_, ?_, ?_, ?_⟩
  · intro label
    unfold prediction_str_of
    by_cases h : label = "Yes"
    · simp [h]
    · simp [h]
  · intro label h
    unfold prediction_str_of
    rw [if_neg h]
  · intro b prof ext ns row hrow
    rw [classifyPhase_ok w b prof ext ns row hrow]
    exact ⟨_, rfl, rfl⟩
  · intro d h
    rcases analyze_ok_shape w req d h with ⟨prof, off, hd, -, -⟩ | ⟨lab, names, contribs, -, h2, -, -⟩
    · rw [hd]; right; rfl
    · rw [h2]
      unfold prediction_str_of
      by_cases hl : lab = "Yes"
      · rw [if_pos hl]; left; rfl
      · rw [if_neg hl]; right; rfl

/-- Witness for `c9_label_fail_closed`, at the unexpected label "Maybe". -/
theorem c9_label_fail_closed_witness :
    prediction_str_of "Maybe" = "No" :=
  (c9_label_fail_closed wReg reqVegan).2.1 "Maybe" (by decide)

/-! ## Claim C10 -/

/-- C10: a hard-stop decision (one carrying a reason) is reachable only when
the trimmed barcode is non-empty and the registry lookup succeeded; when the
record comes from vision (no barcode, or lookup failure), every produced
decision has no reason and carries an explanation — the allergen check is
nested inside the successful-lookup branch and classification always runs. -/
theorem c10_hardstop_only_registry (w : World) (req : Request) :
    (∀ d, analyze_image w req = .ok d → d.reason.isSome = true →
      strTrim req.barcode ≠ "" ∧ ∃ p, w.offResponse (strTrim req.barcode) = some p)
    ∧ ((strTrim req.barcode = "" ∨ w.offResponse (strTrim req.barcode) = none) →
        ∀ d, analyze_image w req = .ok d →
          d.reason = none ∧ ∃ e, d.explanation = some e) := by
  constructor
  · intro d h hsome
    rcases analyze_ok_shape w req d h with ⟨prof, off, -, hb, hp⟩ | ⟨lab, names, contribs, h1, -, -, -⟩
    · exact ⟨hb, hp⟩
    · rw [h1] at hsome
      exact Bool.noConfusion hsome
  · intro hno d h
    rcases analyze_ok_shape w req d h with ⟨prof, off, -, hb, p, hp⟩ | ⟨lab, names, contribs, h1, -, h3, -⟩
    · rcases hno with hbe | hnone
      · exact absurd hbe hb
      · rw [hnone] at hp
        exact Option.noConfusion hp
    · exact ⟨h1, _, h3⟩

/-- Witness for `c10_hardstop_only_registry`, at the Scenario A hard-stop
run. -/
theorem c10_hardstop_only_registry_witness :
    strTrim reqAllergy.barcode ≠ ""
    ∧ ∃ p, wReg.offResponse (strTrim reqAllergy.barcode) = some p :=
  (c10_hardstop_only_registry wReg reqAllergy).1 _ rfl rfl

end FoodAnalyzer
